import Mathlib

/-!
Shallow embedding of src/chatgpt/rlhf/actor_critic.py from the open-chatgpt
repository: the classes ActorModel, CriticModel and ActorCritic.

Conventions of the embedding:
- Token-id tensors of shape (batch, seq) are lists of rows (Tensor2); logit
  and hidden-state tensors of shape (batch, seq, inner) are Tensor3.  The
  numeric entries produced by the pretrained models are abstract (the models
  are function-valued parameters of the embedding), so a single scalar type
  Int is used throughout.
- Python exceptions are modelled by the PyError type; fallible code returns
  Except PyError.
- An attribute that a constructor never assigns is modelled by an Option
  field set to none, read through a match that yields
  PyError.attributeError, mirroring the AttributeError that the Python
  attribute lookup raises.
- The torch.nn.Module rule that assigning a sub-module attribute before
  Module.__init__ has run raises AttributeError is modelled by
  nnModuleSetattr.
- Debug printing (if self.debug: print(...)) is input/output only and is
  elided; it does not affect any returned value.
-/

abbrev Tensor2 : Type := List (List Int)

abbrev Tensor3 : Type := List (List (List Int))

/-- Number of columns of a (batch, seq) tensor, i.e. Python t.shape[1]
(the length of the first row; the tensors are rectangular). -/
def cols (t : Tensor2) : Nat := (t.headD []).length

/-- Python slice semantics l[start:] for an arbitrary integer start: a
negative start counts from the end of the list and clamps at the front, a
nonnegative start drops that many leading entries (clamping at the end). -/
def pySliceFrom {α : Type} (l : List α) (start : Int) : List α :=
  if start < 0 then l.drop (max ((l.length : Int) + start) 0).toNat
  else l.drop start.toNat

/-- Python exceptions raised by the embedded code. -/
inductive PyError : Type where
  | attributeError (msg : String)
  | typeError (msg : String)
  | valueError (msg : String)
  | nameError (msg : String)
  deriving DecidableEq, Repr

/-- The mutable token-codec attributes that actor_critic.py reads and patches
on a loaded HuggingFace tokenizer. -/
structure Tokenizer : Type where
  eos_token : Option String
  eos_token_id : Option Int
  pad_token : Option String
  pad_token_id : Option Int
  padding_side : String
  truncation_side : String
  deriving DecidableEq, Repr

/-- Lines 24-28 (actor) and, textually duplicated, lines 125-129 (critic): if
the loaded tokenizer has no eos token, synthesize the end-of-text token with
id 0; then reuse the eos token as the pad token, both text and id. -/
def patchTokenizer (tk : Tokenizer) : Tokenizer :=
  let tk1 :=
    if tk.eos_token = none then
      { tk with eos_token := some "</s>", eos_token_id := some (0 : Int) }
    else tk
  { tk1 with pad_token := tk1.eos_token, pad_token_id := tk1.eos_token_id }

/-- The configuration object that ActorModel.generate reads from self.config.
The temperature is a float in the source; it is modelled by Rat because it is
only passed through to the abstract sampler, never computed with. -/
structure Config : Type where
  temperature : Rat
  max_sequence_length : Int
  max_tokens : Int

/-- Abstract pretrained causal language model: the full-sequence scoring
function (the logits field of model(input_ids, attention_mask)) and the
sampling function model.generate(input_ids, attention_mask, temperature,
max_length). -/
structure CausalLM : Type where
  forwardLogits : Tensor2 → Tensor2 → Tensor3
  generate : Tensor2 → Tensor2 → Rat → Int → Tensor2

structure ActorModel : Type where
  tokenizer : Tokenizer
  model : CausalLM
  debug : Bool
  config : Option Config

/-- ActorModel.__init__ (lines 16-30): patches the loaded tokenizer (eos
fallback, pad reused from eos) and stores the causal model.  It assigns
self.tokenizer, self.model and self.debug but never self.config, so the
config attribute is absent (none). -/
def ActorModel.init (tok : Tokenizer) (model : CausalLM) (debug : Bool) : ActorModel :=
  { tokenizer := patchTokenizer tok
    model := model
    debug := debug
    config := none }

/-- ActorModel.forward (lines 32-52): one full-sequence scoring call on the
underlying model, returning its logits unchanged.  The source performs no
shape validation on attention_mask. -/
def ActorModel.forward (am : ActorModel) (inputs_ids attention_mask : Tensor2) : Tensor3 :=
  am.model.forwardLogits inputs_ids attention_mask

/-- Line 76: max_generation_possible = max_sequence_length - states.shape[1]. -/
def max_generation_possible (cfg : Config) (promptLen : Nat) : Int :=
  cfg.max_sequence_length - (promptLen : Int)

/-- Line 80: max_completion = min(max_tokens, max_generation_possible). -/
def max_completion (cfg : Config) (promptLen : Nat) : Int :=
  min cfg.max_tokens (max_generation_possible cfg promptLen)

/-- Error message of the ValueError raised at lines 81-84; this is the
BudgetExhaustedError of the specification. -/
def budgetMsg : String :=
  "The maximum completion available is <= 0 the prompt is too long w.r.t the model sequence length"

/-- ActorModel.generate (lines 54-103).  Reading self.config (line 69) raises
AttributeError because __init__ never assigns it.  With a config present the
generation budget is computed; a ValueError is raised when the budget is
exhausted, and otherwise the underlying sampler runs up to
max_length = states.shape[1] + max_completion and the suffix of the sampled
sequences beyond the prompt width is returned as actions
(sequences[:, states.shape[1]:], line 94). -/
def ActorModel.generate (am : ActorModel) (states state_mask : Tensor2) :
    Except PyError (Tensor2 × Tensor2) :=
  match am.config with
  | none => Except.error (PyError.attributeError "config")
  | some cfg =>
    if max_completion cfg (cols states) ≤ 0 then
      Except.error (PyError.valueError budgetMsg)
    else
      Except.ok
        ((am.model.generate states state_mask cfg.temperature
            ((cols states : Int) + max_completion cfg (cols states))).map
          (fun row => pySliceFrom row ((cols states : Int))),
         am.model.generate states state_mask cfg.temperature
            ((cols states : Int) + max_completion cfg (cols states)))

structure EncoderConfig : Type where
  model_head_hidden_size : Option Int

/-- Abstract pretrained encoder model: the last_hidden_state field of
model(input_ids, attention_mask), of shape (batch, seq, hidden), and its
config object. -/
structure EncoderModel : Type where
  last_hidden_state : Tensor2 → Tensor2 → Tensor3
  config : EncoderConfig

structure CriticModel : Type where
  tokenizer : Tokenizer
  model : EncoderModel
  debug : Bool
  value_head : List Int → Int

/-- Error message of the torch.nn.Module attribute rule. -/
def moduleBeforeInitMsg : String :=
  "cannot assign module before Module.__init__() call"

/-- The torch.nn.Module attribute rule: assigning an attribute whose value is
itself a Module (such as the loaded encoder) before Module.__init__ has run
raises AttributeError; plain values are assigned normally. -/
def nnModuleSetattr {α : Type} (super_init_called : Bool) (v : α) : Except PyError α :=
  if super_init_called then Except.ok v
  else Except.error (PyError.attributeError moduleBeforeInitMsg)

/-- CriticModel.__init__ (lines 114-142).  The body never calls
super().__init__(), so the assignment self.model = AutoModel.from_pretrained
at line 123 hits the nn.Module attribute rule and raises AttributeError; the
statements after it (the eos and pad fallback of lines 125-129, the config
read of lines 133-135, and the value head whose construction at line 141
names the undefined Rearrange) are never reached. -/
def CriticModel.init (tok : Tokenizer) (model : EncoderModel) (debug : Bool) :
    Except PyError CriticModel := do
  let super_init_called := false
  let tokenizer := tok
  let model ← nnModuleSetattr super_init_called model
  let tokenizer := patchTokenizer tokenizer
  let _head_hidden_size ←
    match model.config.model_head_hidden_size with
    | some h => Except.ok h
    | none => Except.error (PyError.attributeError "model_head_hidden_size")
  let value_head ← (Except.error (PyError.nameError "name Rearrange is not defined") :
    Except PyError (List Int → Int))
  Except.ok { tokenizer := tokenizer, model := model, debug := debug, value_head := value_head }

/-- CriticModel.forward (lines 144-169): the per-position value head applied
to the last hidden state of the encoder; the Rearrange at the end of the head
removes the trailing singleton dimension, giving shape (batch, seq). -/
def CriticModel.forward (cm : CriticModel) (input_ids attention_mask : Tensor2) : Tensor2 :=
  (cm.model.last_hidden_state input_ids attention_mask).map
    (fun row => row.map cm.value_head)

/-- CriticModel.get_reward (lines 171-181): the value at the last position of
each row, rewards[:, -1]. -/
def CriticModel.get_reward (cm : CriticModel) (input_ids attention_mask : Tensor2) : List Int :=
  (cm.forward input_ids attention_mask).map (fun row => row.getLastD 0)

/-- Error message of the Python call on a tuple. -/
def tupleNotCallableMsg : String := "tuple object is not callable"

/-- The value held by the self.actor attribute of ActorCritic.  The
constructor line 208, self.actor = actor with a trailing comma, stores the
one-element tuple; the model constructor of this type represents the intended
assignment without the comma. -/
inductive ActorAttr : Type where
  | model (am : ActorModel)
  | tuple1 (am : ActorModel)

/-- Python call on the stored value, self.actor(sequences, sequences_mask):
an nn.Module is callable and dispatches to forward; a tuple is not callable
and raises TypeError. -/
def ActorAttr.call (a : ActorAttr) (sequences sequences_mask : Tensor2) :
    Except PyError Tensor3 :=
  match a with
  | .model am => Except.ok (am.forward sequences sequences_mask)
  | .tuple1 _ => Except.error (PyError.typeError tupleNotCallableMsg)

/-- Attribute access self.actor.generate: a tuple has no generate attribute. -/
def ActorAttr.generateMethod (a : ActorAttr) :
    Except PyError (Tensor2 → Tensor2 → Except PyError (Tensor2 × Tensor2)) :=
  match a with
  | .model am => Except.ok am.generate
  | .tuple1 _ => Except.error (PyError.attributeError "generate")

/-- Attribute access self.actor.tokenizer: a tuple has no tokenizer
attribute. -/
def ActorAttr.tokenizerAttr (a : ActorAttr) : Except PyError Tokenizer :=
  match a with
  | .model am => Except.ok am.tokenizer
  | .tuple1 _ => Except.error (PyError.attributeError "tokenizer")

structure ActorCritic : Type where
  actor : ActorAttr
  critic : CriticModel
  debug : Bool

/-- ActorCritic.__init__ (lines 201-210): super().__init__() is called, then
self.actor receives the one-element tuple because of the trailing comma at
line 208, and self.critic and self.debug are stored normally. -/
def ActorCritic.init (actor : ActorModel) (critic : CriticModel) (debug : Bool) : ActorCritic :=
  { actor := ActorAttr.tuple1 actor, critic := critic, debug := debug }

/-- ActorCritic.forward (lines 212-254): apply self.actor to the whole
sequence, score the same sequence with the critic, and keep the trailing
action_len positions of both outputs: logits[:, -action_len:, :] and
values[:, -action_len:]. -/
def ActorCritic.forward (ac : ActorCritic) (sequences sequences_mask : Tensor2)
    (action_len : Int) : Except PyError (Tensor3 × Tensor2) :=
  match ac.actor.call sequences sequences_mask with
  | Except.error e => Except.error e
  | Except.ok actions_logits =>
    let values := ac.critic.forward sequences sequences_mask
    Except.ok
      (actions_logits.map (fun mat => pySliceFrom mat (-action_len)),
       values.map (fun row => pySliceFrom row (-action_len)))

/-- Elementwise form of line 276, sequences_mask = (sequence != pad_token_id),
after the cast to long of line 277: 1 where the token differs from the pad
token id, 0 where it equals it. -/
def padIndicator (pad : Option Int) (t : Int) : Int :=
  if some t ≠ pad then 1 else 0

/-- ActorCritic.generate (lines 256-294): run the actor generation, derive
the attention mask from the pad-token positions of the returned sequence, set
action_len = actions.shape[1] and call forward for the logits and values. -/
def ActorCritic.generate (ac : ActorCritic) (states state_mask : Tensor2) :
    Except PyError (Tensor2 × Tensor3 × Tensor2 × Tensor2 × Tensor2) :=
  match ac.actor.generateMethod with
  | Except.error e => Except.error e
  | Except.ok gen =>
    match gen states state_mask with
    | Except.error e => Except.error e
    | Except.ok (actions, sequence) =>
      match ac.actor.tokenizerAttr with
      | Except.error e => Except.error e
      | Except.ok tok =>
        let sequences_mask := sequence.map
          (fun row => row.map (padIndicator tok.pad_token_id))
        match ac.forward sequence sequences_mask ((cols actions : Int)) with
        | Except.error e => Except.error e
        | Except.ok (actions_logits, values) =>
          Except.ok (actions, actions_logits, values, sequence, sequences_mask)

/-- A concrete tokenizer with a defined eos token, as loaded for a typical
pretrained model. -/
def tok0 : Tokenizer :=
  { eos_token := some "</s>", eos_token_id := some 0, pad_token := some "</s>",
    pad_token_id := some 0, padding_side := "left", truncation_side := "right" }

/-- A concrete tokenizer whose vocabulary defines no eos token (the galactica
case mentioned at line 23). -/
def tokNoEos : Tokenizer :=
  { eos_token := none, eos_token_id := none, pad_token := none,
    pad_token_id := none, padding_side := "left", truncation_side := "right" }

/-- A concrete causal model used to evaluate the embedding on closed inputs:
scoring maps each token id t to the logit row [t, t + 1] and sampling appends
the two tokens 7 and 0 to every prompt row. -/
def mdl0 : CausalLM :=
  { forwardLogits := fun ids _ => ids.map (fun row => row.map (fun t => [t, t + 1]))
    generate := fun ids _ _ _ => ids.map (fun row => row ++ [7, 0]) }

/-- A concrete generation config: max sequence length 5, at most 2 new
tokens. -/
def cfg0 : Config := { temperature := 1, max_sequence_length := 5, max_tokens := 2 }

/-- An actor with the config attribute present (as if assigned after
construction), used to exercise the code paths behind the missing-attribute
error. -/
def am0 : ActorModel := { ActorModel.init tok0 mdl0 false with config := some cfg0 }

/-- A concrete encoder model. -/
def enc0 : EncoderModel :=
  { last_hidden_state := fun ids _ => ids.map (fun row => row.map (fun t => [t]))
    config := { model_head_hidden_size := some 1 } }

/-- A concrete critic record.  CriticModel.init never returns one; this
record instantiates the type directly for closed evaluations. -/
def critic0 : CriticModel :=
  { tokenizer := tok0, model := enc0, debug := false,
    value_head := fun v => v.headD 0 }

/-- Reading an entry of a mapped list through getD commutes with the map when
the default maps to the default. -/
theorem list_getD_map {α β : Type} (f : α → β) (d : α) (l : List α) (i : Nat) :
    (l.map f).getD i (f d) = f (l.getD i d) := by
  induction l generalizing i with
  | nil => cases i <;> rfl
  | cons a t ih => cases i with
    | zero => rfl
    | succ n => exact ih n

/-- Reading an in-range entry of a mapped list through getD commutes with the
map for arbitrary defaults. -/
theorem list_getD_map_lt {α β : Type} (f : α → β) (d : β) (d2 : α) (l : List α) (i : Nat)
    (h : i < l.length) : (l.map f).getD i d = f (l.getD i d2) := by
  induction l generalizing i with
  | nil => simp at h
  | cons a t ih => cases i with
    | zero => rfl
    | succ n => exact ih n (by simpa using Nat.lt_of_succ_lt_succ h)

/-- The long-cast pad indicator is 1 exactly on tokens that differ from the
pad token id. -/
theorem padIndicator_eq_one (pad : Option Int) (t : Int) :
    padIndicator pad t = 1 ↔ some t ≠ pad := by
  by_cases h : some t ≠ pad <;> simp [padIndicator, h]

/-- For 0 < n at most the row length, the Python slice row[-n:] has exactly n
entries and consists of the trailing n entries of the row. -/
theorem pySliceFrom_neg_length {α : Type} (l : List α) (n : Int) (h0 : 0 < n)
    (hle : n ≤ (l.length : Int)) :
    (pySliceFrom l (-n)).length = n.toNat ∧
      pySliceFrom l (-n) = l.drop (l.length - n.toNat) := by
  have hneg : -n < 0 := by omega
  unfold pySliceFrom
  rw [if_pos hneg]
  have hmax : max ((l.length : Int) + -n) 0 = (l.length : Int) + -n :=
    max_eq_left (by omega)
  rw [hmax]
  constructor
  · rw [List.length_drop]; omega
  · congr 1; omega

/-- C8: ActorCritic.__init__ stores the one-element tuple containing the
actor in self.actor because of the trailing comma at line 208; consequently
every forward call raises TypeError (a tuple is not callable) and every
generate call raises AttributeError (a tuple has no generate attribute)
instead of returning a result. -/
theorem C8_actor_stored_as_tuple (actor : ActorModel) (critic : CriticModel) (d : Bool) :
    (ActorCritic.init actor critic d).actor = ActorAttr.tuple1 actor ∧
    (∀ s m n, (ActorCritic.init actor critic d).forward s m n
        = Except.error (PyError.typeError tupleNotCallableMsg)) ∧
    (∀ s m, (ActorCritic.init actor critic d).generate s m
        = Except.error (PyError.attributeError "generate")) :=
  ⟨rfl, fun _ _ _ => rfl, fun _ _ => rfl⟩

/-- C9: ActorModel.__init__ never assigns self.config, so for every
tokenizer, model and input, generate on an actor built by the public
constructor raises AttributeError at the config read of line 69, before any
budget computation or sampling occurs. -/
theorem C9_generate_reads_missing_config (tok : Tokenizer) (mdl : CausalLM) (d : Bool) :
    (ActorModel.init tok mdl d).config = none ∧
    (∀ states state_mask, (ActorModel.init tok mdl d).generate states state_mask
        = Except.error (PyError.attributeError "config")) :=
  ⟨rfl, fun _ _ => rfl⟩

/-- C10: CriticModel.__init__ never calls the nn.Module superclass
constructor, so the module assignment at line 123 raises AttributeError and
construction fails for every pretrained model, tokenizer and debug flag;
forward and get_reward are therefore unreachable through the public
constructor (and the value head at line 141 names the undefined Rearrange). -/
theorem C10_critic_construction_fails (tok : Tokenizer) (mdl : EncoderModel) (d : Bool) :
    CriticModel.init tok mdl d = Except.error (PyError.attributeError moduleBeforeInitMsg) :=
  rfl

/-- C1: the jointScore slicing claim.  First conjunct (the code defect): on an
ActorCritic built by the public constructor every forward call raises
TypeError because self.actor is a tuple, so nothing is returned and neither
model is invoked.  Second conjunct: with the actor stored as a module (the
intended assignment) forward returns exactly the [-action_len:] slice of the
single actor scoring output paired with the [-action_len:] slice of the
single critic scoring output.  Third conjunct: for 0 < n at most the row
length, the slice row[-n:] has length n and is the trailing n entries. -/
theorem C1_jointScore_slices_last_actionLen :
    (∀ (actor : ActorModel) (critic : CriticModel) (d : Bool) (s m : Tensor2) (n : Int),
      (ActorCritic.init actor critic d).forward s m n
        = Except.error (PyError.typeError tupleNotCallableMsg)) ∧
    (∀ (am : ActorModel) (critic : CriticModel) (d : Bool) (s m : Tensor2) (n : Int),
      (ActorCritic.mk (ActorAttr.model am) critic d).forward s m n
        = Except.ok ((am.forward s m).map (fun mat => pySliceFrom mat (-n)),
            (critic.forward s m).map (fun row => pySliceFrom row (-n)))) ∧
    (∀ (row : List Int) (n : Int), 0 < n → n ≤ (row.length : Int) →
      (pySliceFrom row (-n)).length = n.toNat ∧
        pySliceFrom row (-n) = row.drop (row.length - n.toNat)) :=
  ⟨fun _ _ _ _ _ _ => rfl, fun _ _ _ _ _ _ => rfl,
   fun row n h1 h2 => pySliceFrom_neg_length row n h1 h2⟩

/-- Closed instance of C1: slicing the last 2 entries of a 3-entry row keeps
length 2 and exactly the final two entries. -/
theorem C1_witness :
    (pySliceFrom ([10, 20, 30] : List Int) (-(2 : Int))).length = (2 : Int).toNat ∧
      pySliceFrom ([10, 20, 30] : List Int) (-(2 : Int))
        = ([10, 20, 30] : List Int).drop (([10, 20, 30] : List Int).length - (2 : Int).toNat) :=
  C1_jointScore_slices_last_actionLen.2.2 [10, 20, 30] 2 (by decide) (by decide)

/-- C2: the rollout mask claim.  First conjunct (the code defect): every
generate call on an ActorCritic built by the public constructor raises
AttributeError, since self.actor is a tuple, so rollout never produces a
sequence or a mask.  Second conjunct: with the actor stored as a module,
whenever generate succeeds the returned mask agrees pointwise with the
pad-token indicator of the returned sequence: mask[b][t] = 1 iff
sequence[b][t] differs from the actor pad token id. -/
theorem C2_rollout_mask_pad_agreement :
    (∀ (actor : ActorModel) (critic : CriticModel) (d : Bool) (states state_mask : Tensor2),
      (ActorCritic.init actor critic d).generate states state_mask
        = Except.error (PyError.attributeError "generate")) ∧
    (∀ (am : ActorModel) (critic : CriticModel) (d : Bool)
       (states state_mask a : Tensor2) (al : Tensor3) (v seq mask : Tensor2),
      (ActorCritic.mk (ActorAttr.model am) critic d).generate states state_mask
          = Except.ok (a, al, v, seq, mask) →
      ∀ b t, t < (seq.getD b []).length →
        ((mask.getD b []).getD t 0 = 1 ↔
          some ((seq.getD b []).getD t 0) ≠ am.tokenizer.pad_token_id)) := by
  constructor
  · intro actor critic d states state_mask; rfl
  · intro am critic d states state_mask a al v seq mask h b t ht
    unfold ActorCritic.generate at h
    simp only [ActorAttr.generateMethod] at h
    rcases hg : am.generate states state_mask with e | p
    · rw [hg] at h; cases h
    · rcases p with ⟨actions, sequence⟩
      rw [hg] at h
      simp only [ActorAttr.tokenizerAttr, ActorCritic.forward, ActorAttr.call,
        Except.ok.injEq, Prod.mk.injEq] at h
      obtain ⟨-, -, -, hseq, hmask⟩ := h
      rw [← hseq] at ht
      rw [← hmask, ← hseq]
      have houter :
          (sequence.map (fun row => row.map (padIndicator am.tokenizer.pad_token_id))).getD b []
            = (sequence.getD b []).map (padIndicator am.tokenizer.pad_token_id) :=
        list_getD_map (fun row => row.map (padIndicator am.tokenizer.pad_token_id)) [] sequence b
      rw [houter,
        list_getD_map_lt (padIndicator am.tokenizer.pad_token_id) 0 0 (sequence.getD b []) t ht]
      exact padIndicator_eq_one am.tokenizer.pad_token_id ((sequence.getD b []).getD t 0)

/-- Closed instance of C2: in a concrete successful rollout with the intended
actor assignment, the first mask entry is 1 and the first sequence token
differs from the pad id. -/
theorem C2_witness :
    (([[1, 1, 1, 1, 0]] : Tensor2).getD 0 []).getD 0 0 = 1 ↔
      some ((([[1, 2, 3, 7, 0]] : Tensor2).getD 0 []).getD 0 0) ≠ am0.tokenizer.pad_token_id :=
  C2_rollout_mask_pad_agreement.2 am0 critic0 false [[1, 2, 3]] [[1, 1, 1]]
    [[7, 0]] [[[7, 8], [0, 1]]] [[7, 0]] [[1, 2, 3, 7, 0]] [[1, 1, 1, 1, 0]]
    (by rfl) 0 0 (by decide)

/-- C3: the budget check claim.  First conjunct (the code defect): through
the public constructor every generate call raises AttributeError on the
missing config attribute, so the budget is never computed and no budget error
is ever raised.  Second conjunct: with a config present, whenever the
computed budget min(max_tokens, max_sequence_length - promptLength) is
nonpositive, generate raises the ValueError of lines 81-84 for every
underlying model, i.e. before any sampler can run. -/
theorem C3_budget_exhaustion_check :
    (∀ (tok : Tokenizer) (mdl : CausalLM) (d : Bool) (states state_mask : Tensor2),
      (ActorModel.init tok mdl d).generate states state_mask
        = Except.error (PyError.attributeError "config")) ∧
    (∀ (am : ActorModel) (cfg : Config), am.config = some cfg →
      ∀ states state_mask : Tensor2, max_completion cfg (cols states) ≤ 0 →
        am.generate states state_mask = Except.error (PyError.valueError budgetMsg)) := by
  constructor
  · intro tok mdl d states state_mask; rfl
  · intro am cfg hcfg states state_mask hmc
    unfold ActorModel.generate
    split
    · rename_i heq
      rw [heq] at hcfg
      cases hcfg
    · rename_i c heq
      rw [heq] at hcfg
      injection hcfg with hc
      subst hc
      rw [if_pos hmc]

/-- Closed instance of C3: with the config present (max sequence length 5)
and a 6-column prompt, generate raises the budget ValueError. -/
theorem C3_witness :
    am0.generate [[1, 1, 1, 1, 1, 1]] [[1, 1, 1, 1, 1, 1]]
      = Except.error (PyError.valueError budgetMsg) :=
  C3_budget_exhaustion_check.2 am0 cfg0 (by rfl) [[1, 1, 1, 1, 1, 1]] [[1, 1, 1, 1, 1, 1]]
    (by decide)

/-- C4: the rollout round-trip claim.  First conjunct (the code defect):
rollout on an ActorCritic built by the public constructor raises
AttributeError on every input, so no sequence or actions are returned.
Second conjunct: whenever ActorModel.generate succeeds, the returned actions
are exactly the suffix of the returned sequences beyond the prompt width
states.shape[1]. -/
theorem C4_rollout_suffix :
    (∀ (actor : ActorModel) (critic : CriticModel) (d : Bool) (states state_mask : Tensor2),
      (ActorCritic.init actor critic d).generate states state_mask
        = Except.error (PyError.attributeError "generate")) ∧
    (∀ (am : ActorModel) (states state_mask actions sequences : Tensor2),
      am.generate states state_mask = Except.ok (actions, sequences) →
      actions = sequences.map (fun row => pySliceFrom row ((cols states : Int)))) := by
  constructor
  · intro actor critic d states state_mask; rfl
  · intro am states state_mask actions sequences h
    unfold ActorModel.generate at h
    split at h
    · cases h
    · split at h
      · cases h
      · simp only [Except.ok.injEq, Prod.mk.injEq] at h
        obtain ⟨h1, h2⟩ := h
        subst h2
        exact h1.symm

/-- Closed instance of C4: in a concrete successful generation from a
3-column prompt, the returned actions are the suffix of the returned
sequences beyond column 3. -/
theorem C4_witness :
    ([[7, 0]] : Tensor2)
      = ([[1, 2, 3, 7, 0]] : Tensor2).map
          (fun row => pySliceFrom row ((cols ([[1, 2, 3]] : Tensor2) : Int))) :=
  C4_rollout_suffix.2 am0 [[1, 2, 3]] [[1, 1, 1]] [[7, 0]] [[1, 2, 3, 7, 0]] (by rfl)

/-- C5: the budget monotonicity claim.  First and second conjuncts: the
computed budget max_completion is non-increasing in the prompt length and
nonpositive once the prompt length reaches max_sequence_length, for every
config.  Third conjunct: with a config present, a prompt at least
max_sequence_length wide makes generate raise the budget ValueError.  Fourth
conjunct (the code defect): through the public constructor the config read
raises AttributeError first, so the budget error is never reached. -/
theorem C5_budget_monotone :
    (∀ (cfg : Config) (p q : Nat), p ≤ q → max_completion cfg q ≤ max_completion cfg p) ∧
    (∀ (cfg : Config) (p : Nat), cfg.max_sequence_length ≤ (p : Int) →
      max_completion cfg p ≤ 0) ∧
    (∀ (am : ActorModel) (cfg : Config), am.config = some cfg →
      ∀ states state_mask : Tensor2, cfg.max_sequence_length ≤ (cols states : Int) →
        am.generate states state_mask = Except.error (PyError.valueError budgetMsg)) ∧
    (∀ (tok : Tokenizer) (mdl : CausalLM) (d : Bool) (states state_mask : Tensor2),
      (ActorModel.init tok mdl d).generate states state_mask
        = Except.error (PyError.attributeError "config")) := by
  refine ⟨?_, ?_, ?_, ?_⟩
  · intro cfg p q hpq
    unfold max_completion max_generation_possible
    exact min_le_min (le_refl _) (by omega)
  · intro cfg p hp
    unfold max_completion max_generation_possible
    exact le_trans (min_le_right _ _) (by omega)
  · intro am cfg hcfg states state_mask hp
    have hmc : max_completion cfg (cols states) ≤ 0 := by
      unfold max_completion max_generation_possible
      exact le_trans (min_le_right _ _) (by omega)
    unfold ActorModel.generate
    split
    · rename_i heq
      rw [heq] at hcfg
      cases hcfg
    · rename_i c heq
      rw [heq] at hcfg
      injection hcfg with hc
      subst hc
      rw [if_pos hmc]
  · intro tok mdl d states state_mask; rfl

/-- Closed instance of C5: with the concrete config, the budget at prompt
width 3 is at most the budget at prompt width 2. -/
theorem C5_witness : max_completion cfg0 3 ≤ max_completion cfg0 2 :=
  C5_budget_monotone.1 cfg0 2 3 (by decide)

/-- C6 counterexample: a concrete forward call whose attention mask shape
(1, 3) differs from the token tensor shape (1, 2) raises nothing; the
underlying model is invoked and its logits are returned. -/
theorem C6_counterexample :
    cols ([[1, 1, 1]] : Tensor2) ≠ cols ([[1, 2]] : Tensor2) ∧
    (ActorModel.init tok0 mdl0 false).forward [[1, 2]] [[1, 1, 1]]
      = [[[1, 2], [2, 3]]] :=
  ⟨by decide, rfl⟩

/-- C6 amended: ActorModel.forward performs no shape validation at all; for
every tokenizer, model and pair of inputs, including attention masks whose
shape differs from the token tensor, it invokes the underlying model and
returns its logits unchanged, and no shape error is raised anywhere. -/
theorem C6_no_shape_check (tok : Tokenizer) (mdl : CausalLM) (d : Bool)
    (inputs_ids attention_mask : Tensor2) :
    (ActorModel.init tok mdl d).forward inputs_ids attention_mask
      = mdl.forwardLogits inputs_ids attention_mask :=
  rfl

/-- C7: the eos fallback claim.  First conjunct: the actor constructor does
apply the fallback: when no eos token is defined, the patched tokenizer
carries the end-of-text token with id 0 as eos, reused as pad token text and
id.  Second conjunct (the code defect): the critic constructor raises
AttributeError at line 123 before reaching its copy of the fallback at lines
125-129, so the fallback is not applied to the critic at all, let alone
uniformly. -/
theorem C7_eos_fallback_not_uniform :
    (∀ (tok : Tokenizer) (mdl : CausalLM) (d : Bool), tok.eos_token = none →
      (ActorModel.init tok mdl d).tokenizer.eos_token = some "</s>" ∧
      (ActorModel.init tok mdl d).tokenizer.eos_token_id = some 0 ∧
      (ActorModel.init tok mdl d).tokenizer.pad_token = some "</s>" ∧
      (ActorModel.init tok mdl d).tokenizer.pad_token_id = some 0) ∧
    (∀ (tok : Tokenizer) (mdl : EncoderModel) (d : Bool),
      CriticModel.init tok mdl d
        = Except.error (PyError.attributeError moduleBeforeInitMsg)) := by
  constructor
  · intro tok mdl d h
    simp [ActorModel.init, patchTokenizer, h]
  · intro tok mdl d; rfl

/-- Closed instance of C7: the actor constructor applied to a tokenizer
without eos token yields the synthesized end-of-text token with id 0 as both
eos and pad. -/
theorem C7_witness :
    (ActorModel.init tokNoEos mdl0 false).tokenizer.eos_token = some "</s>" ∧
    (ActorModel.init tokNoEos mdl0 false).tokenizer.eos_token_id = some 0 ∧
    (ActorModel.init tokNoEos mdl0 false).tokenizer.pad_token = some "</s>" ∧
    (ActorModel.init tokNoEos mdl0 false).tokenizer.pad_token_id = some 0 :=
  C7_eos_fallback_not_uniform.1 tokNoEos mdl0 false (by rfl)
